import Mathlib

/-!
Shallow embedding of the conversational scheduling orchestrator
(app/services/scheduler.py, app/services/ai_service.py,
app/services/rag_service.py, app/api/webhooks.py) and proofs about it.

External collaborators (Google Calendar, Todoist, the OpenAI classifier and
generator, the Qdrant vector store) are modelled as per-request responses
(oracles): each embedded operation takes the response the external port gives
to the single outbound call it makes, and the theorems quantify over those
responses.  Machine integers do not occur; JSON numbers are modelled as Nat
and Rat.  Fallible steps that the source wraps in try/except are modelled by
the value the except branch produces, so every embedded function is total.
-/

namespace WAMS

/-- Calendar date, as produced by datetime.strptime(s, "%Y-%m-%d").date(). -/
structure Date where
  year : Nat
  month : Nat
  day : Nat
deriving DecidableEq, Repr

/-- Time of day, as produced by datetime.strptime(s, "%H:%M").time(). -/
structure TimeOfDay where
  hour : Nat
  minute : Nat
deriving DecidableEq, Repr

/-- Naive datetime, as datetime.combine(date_part, time_part). -/
structure DateTime where
  date : Date
  timeOfDay : TimeOfDay
deriving DecidableEq, Repr

def isLeapYear (y : Nat) : Bool :=
  (y % 4 == 0 && y % 100 != 0) || y % 400 == 0

def daysInMonth (y m : Nat) : Nat :=
  if m == 2 then (if isLeapYear y then 29 else 28)
  else if m == 4 || m == 6 || m == 9 || m == 11 then 30
  else 31

/-- d + timedelta(days=1). -/
def nextDay (d : Date) : Date :=
  if d.day < daysInMonth d.year d.month then { d with day := d.day + 1 }
  else if d.month < 12 then { year := d.year, month := d.month + 1, day := 1 }
  else { year := d.year + 1, month := 1, day := 1 }

def addDays (d : Date) : Nat → Date
  | 0 => d
  | n + 1 => addDays (nextDay d) n

/-- dt + timedelta(minutes=m). -/
def addMinutes (dt : DateTime) (m : Nat) : DateTime :=
  let total := dt.timeOfDay.hour * 60 + dt.timeOfDay.minute + m
  { date := addDays dt.date (total / 1440)
    timeOfDay := { hour := total % 1440 / 60, minute := total % 60 } }

def pad2 (n : Nat) : String :=
  if n < 10 then "0" ++ toString n else toString n

def pad4 (n : Nat) : String :=
  if n < 10 then "000" ++ toString n
  else if n < 100 then "00" ++ toString n
  else if n < 1000 then "0" ++ toString n
  else toString n

/-- date.isoformat(). -/
def Date.isoformat (d : Date) : String :=
  pad4 d.year ++ "-" ++ pad2 d.month ++ "-" ++ pad2 d.day

/-- datetime.isoformat() (seconds are always zero in this model, the parsers
only produce whole minutes). -/
def DateTime.isoformat (dt : DateTime) : String :=
  dt.date.isoformat ++ "T" ++ pad2 dt.timeOfDay.hour ++ ":" ++ pad2 dt.timeOfDay.minute ++ ":00"

/-- datetime.strftime("%Y-%m-%d %H:%M"). -/
def DateTime.strftimeYmdHm (dt : DateTime) : String :=
  dt.date.isoformat ++ " " ++ pad2 dt.timeOfDay.hour ++ ":" ++ pad2 dt.timeOfDay.minute

/-- Numeric sort key, strictly monotone in the lexicographic order
(year, month, day, hour, minute) on the calendar range the parsers produce. -/
def DateTime.key (dt : DateTime) : Nat :=
  ((dt.date.year * 16 + dt.date.month) * 32 + dt.date.day) * 1440
    + dt.timeOfDay.hour * 60 + dt.timeOfDay.minute

/-- str.split(sep) on a one-character separator, at the character-list level
(structural recursion, so proofs can evaluate it). -/
def splitOnChar (sep : Char) : List Char → List (List Char)
  | [] => [[]]
  | c :: cs =>
    let rest := splitOnChar sep cs
    if c == sep then [] :: rest
    else
      match rest with
      | [] => [[c]]
      | r :: rs => (c :: r) :: rs

/-- A run of 1 to maxLen ASCII digits, read as a number (the widths strptime
accepts for its numeric directives). -/
def numField (l : List Char) (maxLen : Nat) : Option Nat :=
  if decide (1 ≤ l.length) && decide (l.length ≤ maxLen) && l.all Char.isDigit then
    some (l.foldl (fun acc c => acc * 10 + (c.toNat - 48)) 0)
  else none

/-- datetime.strptime(s, "%Y-%m-%d").date(): dash-separated year, month and
day fields, with month and day range-checked against the calendar.  Returns
none exactly where strptime raises ValueError. -/
def strptimeDate (s : String) : Option Date :=
  match splitOnChar '-' s.data with
  | [ys, ms, ds] =>
    match numField ys 4, numField ms 2, numField ds 2 with
    | some y, some m, some d =>
      if 1 ≤ m ∧ m ≤ 12 ∧ 1 ≤ d ∧ d ≤ daysInMonth y m then some ⟨y, m, d⟩ else none
    | _, _, _ => none
  | _ => none

/-- datetime.strptime(s, "%H:%M").time(). -/
def strptimeTime (s : String) : Option TimeOfDay :=
  match splitOnChar ':' s.data with
  | [hs, ms] =>
    match numField hs 2, numField ms 2 with
    | some h, some m => if h ≤ 23 ∧ m ≤ 59 then some ⟨h, m⟩ else none
    | _, _ => none
  | _ => none

/-- Python truthiness of an optional string: None and the empty string are
falsy.  dict.get of an absent key gives None. -/
def pyTruthy : Option String → Bool
  | none => false
  | some s => s != ""

/-- SchedulerService._parse_datetime.  The first branch runs only when both
strings are truthy and parses them with strptime inside a try; any parse
failure, and any missing or empty string, falls through to the fallback:
tomorrow at the parsed time when the time string is well-formed, tomorrow at
10:00 otherwise.  nowDate stands for datetime.now().date().  The function
never raises: the fallback re-parse of the time string is guarded by a bare
except that substitutes 10:00. -/
def parse_datetime (nowDate : Date) (dateStr timeStr : Option String) : DateTime :=
  let parsed : Option DateTime :=
    if pyTruthy dateStr && pyTruthy timeStr then
      match strptimeDate (dateStr.getD ""), strptimeTime (timeStr.getD "") with
      | some dp, some tp => some ⟨dp, tp⟩
      | _, _ => none
    else none
  match parsed with
  | some dt => dt
  | none =>
    let tomorrow := nextDay nowDate
    let timePart : TimeOfDay :=
      if pyTruthy timeStr then (strptimeTime (timeStr.getD "")).getD ⟨10, 0⟩
      else ⟨10, 0⟩
    ⟨tomorrow, timePart⟩

/-- Response of one outbound call to an external service, as the service
wrappers return it: a success payload or an error string. -/
inductive SvcResult (α : Type) where
  | ok (value : α)
  | err (error : String)
deriving DecidableEq, Repr

/-- The JSON object produced by the intent classifier
(AIService.classify_intent).  A field holds some v when the key is present
with a non-null value and none when the key is absent, so dict.get with a
default yields the default on none.  confidence is exact JSON-number data;
no floating-point arithmetic is ever performed on it. -/
structure AIResult where
  intent : Option String := none
  date : Option String := none
  time : Option String := none
  timezone : Option String := none
  durationMinutes : Option Nat := none
  meetingType : Option String := none
  location : Option String := none
  participants : List String := []
  title : Option String := none
  confidence : Rat := 0
  error : Option String := none
deriving DecidableEq, Repr

/-- AIService.classify_intent: the chat-completion call and json.loads sit in
one try block; on success the parsed object is returned unchanged, on any
failure (API error, timeout, non-JSON output) the except branch returns
intent "other" with confidence 0.0 and the error string, and never raises. -/
def classify_intent (response : SvcResult AIResult) : AIResult :=
  match response with
  | .ok r => r
  | .err e => { intent := some "other", confidence := 0, error := some e }

/-- C7 counterexample: with a date string strptime cannot parse and the
well-formed time string "15:30", _parse_datetime returns tomorrow at 15:30,
not tomorrow at 10:00 as the claim states. -/
theorem claim7_fallback_counterexample :
    parse_datetime ⟨2025, 10, 12⟩ (some "next tuesday") (some "15:30")
      = ⟨⟨2025, 10, 13⟩, ⟨15, 30⟩⟩ ∧
    (⟨⟨2025, 10, 13⟩, ⟨15, 30⟩⟩ : DateTime) ≠ ⟨⟨2025, 10, 13⟩, ⟨10, 0⟩⟩ := by
  constructor
  · decide
  · decide

/-- C7 amended: whenever the strict parse of the date/time pair fails (either
string missing or empty, or either strptime parse failing), _parse_datetime
returns tomorrow at the provided time when the time string is well-formed,
and tomorrow at 10:00 otherwise; being a total function it never raises.
(The source works in naive local process time; no per-user timezone is
applied anywhere in _parse_datetime.) -/
theorem claim7_fallback_amended (nowDate : Date) (dateStr timeStr : Option String)
    (h : ¬ (pyTruthy dateStr = true ∧ pyTruthy timeStr = true
            ∧ (strptimeDate (dateStr.getD "")).isSome = true
            ∧ (strptimeTime (timeStr.getD "")).isSome = true)) :
    parse_datetime nowDate dateStr timeStr
      = ⟨nextDay nowDate,
         if pyTruthy timeStr = true then (strptimeTime (timeStr.getD "")).getD ⟨10, 0⟩
         else ⟨10, 0⟩⟩ := by
  unfold parse_datetime
  cases hd : pyTruthy dateStr <;> cases ht : pyTruthy timeStr <;> simp [hd, ht]
  cases hsd : strptimeDate (dateStr.getD "") with
  | none => simp
  | some dp =>
    cases hst : strptimeTime (timeStr.getD "") with
    | none => simp
    | some tp =>
      exact absurd ⟨hd, ht, by simp [hsd], by simp [hst]⟩ h

/-- Witness for the amended C7 theorem at a concrete input: a date string with
an out-of-range month and an absent time string resolve to the day after
2025-01-31, namely 2025-02-01, at 10:00. -/
theorem claim7_fallback_amended_witness :
    (¬ (pyTruthy (some "2025-13-40") = true ∧ pyTruthy (none : Option String) = true
        ∧ (strptimeDate ((some "2025-13-40").getD "")).isSome = true
        ∧ (strptimeTime ((none : Option String).getD "")).isSome = true)) ∧
    parse_datetime ⟨2025, 1, 31⟩ (some "2025-13-40") none
      = ⟨⟨2025, 2, 1⟩, ⟨10, 0⟩⟩ := by
  refine ⟨by decide, ?_⟩
  have h := claim7_fallback_amended ⟨2025, 1, 31⟩ (some "2025-13-40") none (by decide)
  simpa using h

/-- Row of the users table (app/models/database.py).  Only the columns the
orchestrator reads are carried; the credential handles live behind the
service ports, whose responses are the oracles. -/
structure UserRec where
  id : Nat
  phoneNumber : String
deriving DecidableEq, Repr

/-- Row of the meetings table.  status has column default "scheduled"; the
Meeting(...) constructor in create_meeting does not pass it, so a fresh row
gets the default.  createdAt is the created_at utcnow tick, modelled as
minutes (used only for the 30-day history window). -/
structure MeetingRec where
  id : Nat
  userId : Nat
  googleEventId : Option String
  todoistTaskId : Option String
  title : String
  startTime : DateTime
  endTime : DateTime
  location : Option String
  meetingType : String
  status : String
  createdAt : Nat
deriving DecidableEq, Repr

/-- Committed state of the relational store. -/
structure DB where
  users : List UserRec
  meetings : List MeetingRec
  nextUserId : Nat
  nextMeetingId : Nat
deriving DecidableEq, Repr

/-- A SQLAlchemy session (SessionLocal(), autocommit=False, autoflush=False).
Assigning to an attribute of an ORM object stages the update on the session
that owns the object; only that session.commit() writes it, and closing the
session without committing discards it.  The only attribute ever assigned
this way in the source is Meeting.todoist_task_id, so the staged set is a
list of (meeting id, task id) pairs. -/
structure Session where
  staged : List (Nat × String)
deriving DecidableEq, Repr

/-- session.commit(): flush this session's staged updates into the store. -/
def commitSession (db : DB) (s : Session) : DB :=
  { db with
    meetings := db.meetings.map fun m =>
      match s.staged.find? (fun p => p.1 == m.id) with
      | some p => { m with todoistTaskId := some p.2 }
      | none => m }

/-- create_meeting lines 22-27: query the user by phone, inserting and
committing a fresh row when absent. -/
def getOrCreateUser (db : DB) (phone : String) : UserRec × DB :=
  match db.users.find? (fun u => u.phoneNumber == phone) with
  | some u => (u, db)
  | none =>
    let u : UserRec := ⟨db.nextUserId, phone⟩
    (u, { db with users := db.users ++ [u], nextUserId := db.nextUserId + 1 })

/-- Payload handed to GoogleCalendarService.create_event (event_data dict in
create_meeting). -/
structure EventData where
  title : String
  startTime : DateTime
  endTime : DateTime
  location : Option String
  timezone : String
  attendees : List String
deriving DecidableEq, Repr

/-- Payload handed to TodoistService.create_task (task_data dict in
_create_todoist_task). -/
structure TaskData where
  content : String
  description : String
  dueDate : Date
  priority : Nat
  labels : List String
deriving DecidableEq, Repr

/-- Observable outbound call to an external system, recorded so theorems can
speak about which side effects an operation issues and with which
credentials (the phone selects the stored credential). -/
inductive ExtCall where
  | calCreate (phone : String) (ev : EventData)
  | taskCreate (phone : String) (td : TaskData)
  | calDelete (phone : String) (eventId : String)
  | taskDel (phone : String) (taskId : String)
deriving DecidableEq, Repr

/-- Value of the dict create_meeting returns. -/
structure CreateResult where
  success : Bool
  error : Option String
  meetingId : Option Nat
  eventId : Option String
deriving DecidableEq, Repr

/-- Python truthiness of a plain string. -/
def pyTruthyStr (s : String) : Bool := s != ""

/-- SchedulerService._create_todoist_task.  Builds the task payload from the
meeting row and calls the task port.  On success the source assigns
meeting.todoist_task_id on the ORM object — which stages the update on the
session owning that object, namely the caller's session outer — and then
commits db = SessionLocal(), a freshly opened session that has no staged
changes, so the store is not touched here.  On failure, and on any raised
error, it only logs.  Returns the store, the caller's session and the calls
issued. -/
def create_todoist_task (outer : Session) (phone : String) (meeting : MeetingRec)
    (taskCreate : SvcResult String) (db : DB) : DB × Session × List ExtCall :=
  let taskContent :=
    "📅 Meeting: " ++ meeting.title
      ++ (match meeting.location with
          | some l => if pyTruthyStr l then " at " ++ l else ""
          | none => "")
  let taskDescription :=
    "Meeting scheduled for " ++ meeting.startTime.strftimeYmdHm
      ++ (if pyTruthyStr meeting.meetingType then "\nType: " ++ meeting.meetingType else "")
  let taskData : TaskData :=
    { content := taskContent
      description := taskDescription
      dueDate := meeting.startTime.date
      priority := 2
      labels := ["meeting", "scheduled"] }
  match taskCreate with
  | .ok taskId =>
    let outer := { outer with staged := (meeting.id, taskId) :: outer.staged }
    let inner : Session := { staged := [] }
    let db := commitSession db inner
    (db, outer, [.taskCreate phone taskData])
  | .err _ => (db, outer, [.taskCreate phone taskData])

/-- SchedulerService.create_meeting.  nowDate/nowTick stand for the process
clock; calendarCreate and taskCreate are the responses of the two outbound
port calls.  The calendar call gates: on error the function returns the
failure before any Meeting row exists.  On success a Meeting row is inserted
and committed with the default status "scheduled", the returned event id and
a null task id, then _create_todoist_task runs, and finally the outer
session is closed — discarding whatever _create_todoist_task staged on it
but never committed. -/
def create_meeting (db : DB) (nowDate : Date) (nowTick : Nat) (phone : String)
    (meetingData : AIResult) (calendarCreate taskCreate : SvcResult String) :
    CreateResult × DB × List ExtCall :=
  let (user, db) := getOrCreateUser db phone
  let startTime := parse_datetime nowDate meetingData.date meetingData.time
  let duration := meetingData.durationMinutes.getD 30
  let endTime := addMinutes startTime duration
  let eventData : EventData :=
    { title := meetingData.title.getD "Meeting"
      startTime := startTime
      endTime := endTime
      location := meetingData.location
      timezone := meetingData.timezone.getD "UTC"
      attendees := meetingData.participants }
  match calendarCreate with
  | .err e =>
    ({ success := false, error := some e, meetingId := none, eventId := none },
     db, [.calCreate phone eventData])
  | .ok eventId =>
    let meeting : MeetingRec :=
      { id := db.nextMeetingId
        userId := user.id
        googleEventId := some eventId
        todoistTaskId := none
        title := meetingData.title.getD "Meeting"
        startTime := startTime
        endTime := endTime
        location := meetingData.location
        meetingType := meetingData.meetingType.getD "in-person"
        status := "scheduled"
        createdAt := nowTick }
    let db := { db with
                meetings := db.meetings ++ [meeting]
                nextMeetingId := db.nextMeetingId + 1 }
    let outer : Session := { staged := [] }
    let (db, _outer, taskCalls) := create_todoist_task outer phone meeting taskCreate db
    ({ success := true, error := none, meetingId := some meeting.id,
       eventId := some eventId },
     db, .calCreate phone eventData :: taskCalls)

/-- Value of the dict cancel_meeting returns. -/
structure CancelResult where
  success : Bool
  message : Option String
  error : Option String
deriving DecidableEq, Repr

/-- SchedulerService.cancel_meeting.  The meeting is looked up by id alone —
there is no filter on the owning user; phone is used only to select the
credentials for the two external deletions.  A failed calendar or task
deletion is only logged as a warning (calendarDelete and taskDelete, the
responses of those calls, influence nothing else), the status is then set to
cancelled and committed, and success is returned.  A missing id returns the
Meeting-not-found failure without touching anything. -/
def cancel_meeting (db : DB) (phone : String) (meetingId : Nat)
    (calendarDelete taskDelete : SvcResult Unit) : CancelResult × DB × List ExtCall :=
  match db.meetings.find? (fun m => m.id == meetingId) with
  | none => ({ success := false, message := none, error := some "Meeting not found" }, db, [])
  | some meeting =>
    let calCalls : List ExtCall :=
      match meeting.googleEventId with
      | some eid => if pyTruthyStr eid then [.calDelete phone eid] else []
      | none => []
    let taskCalls : List ExtCall :=
      match meeting.todoistTaskId with
      | some tid => if pyTruthyStr tid then [.taskDel phone tid] else []
      | none => []
    let db := { db with
                meetings := db.meetings.map fun m =>
                  if m.id == meetingId then { m with status := "cancelled" } else m }
    ({ success := true, message := some "Meeting cancelled successfully", error := none },
     db, calCalls ++ taskCalls)

/-- The status rewrite cancel_meeting performs on the meetings table. -/
def cancelStatus (mid : Nat) (m : MeetingRec) : MeetingRec :=
  if m.id == mid then { m with status := "cancelled" } else m

theorem cancelStatus_id (mid : Nat) (m : MeetingRec) : (cancelStatus mid m).id = m.id := by
  unfold cancelStatus
  by_cases hx : (m.id == mid) = true <;> simp [hx]

theorem cancelStatus_idem (mid : Nat) (m : MeetingRec) :
    cancelStatus mid (cancelStatus mid m) = cancelStatus mid m := by
  unfold cancelStatus
  by_cases hx : (m.id == mid) = true <;> simp [hx]

theorem cancel_meeting_meetings_eq (db : DB) (phone : String) (mid : Nat)
    (cd td : SvcResult Unit) (m : MeetingRec)
    (hf : db.meetings.find? (fun m => m.id == mid) = some m) :
    (cancel_meeting db phone mid cd td).2.1.meetings = db.meetings.map (cancelStatus mid) := by
  simp only [cancel_meeting, hf]
  rfl

theorem cancel_meeting_success (db : DB) (phone : String) (mid : Nat)
    (cd td : SvcResult Unit) (m : MeetingRec)
    (hf : db.meetings.find? (fun m => m.id == mid) = some m) :
    (cancel_meeting db phone mid cd td).1.success = true := by
  simp only [cancel_meeting, hf]

theorem find?_id_isSome_of_mem (l : List MeetingRec) (mid : Nat) (m : MeetingRec)
    (hm : m ∈ l) (hid : m.id = mid) : (l.find? (fun m => m.id == mid)).isSome := by
  rw [List.find?_isSome]
  exact ⟨m, hm, by simp [hid]⟩

/-- C5: cancellation is non-blocking on external failures and idempotent.
For every store containing a meeting with the requested id, and for all
responses of the calendar- and task-deletion ports (failures included),
cancel_meeting reports success and every row with that id ends with status
cancelled; running cancel_meeting again on the resulting store (again under
arbitrary deletion responses) also reports success and leaves the meetings
table exactly as the first run left it. -/
theorem claim5_cancel_idempotent_nonblocking (db : DB) (phone : String) (mid : Nat)
    (cd1 td1 cd2 td2 : SvcResult Unit)
    (h : ∃ m ∈ db.meetings, m.id = mid) :
    (cancel_meeting db phone mid cd1 td1).1.success = true ∧
    (∀ m ∈ (cancel_meeting db phone mid cd1 td1).2.1.meetings,
        m.id = mid → m.status = "cancelled") ∧
    (cancel_meeting (cancel_meeting db phone mid cd1 td1).2.1 phone mid cd2 td2).1.success
      = true ∧
    (cancel_meeting (cancel_meeting db phone mid cd1 td1).2.1 phone mid cd2 td2).2.1.meetings
      = (cancel_meeting db phone mid cd1 td1).2.1.meetings := by
  obtain ⟨m0, hm0, hid0⟩ := h
  have hs1 : (db.meetings.find? (fun m => m.id == mid)).isSome :=
    find?_id_isSome_of_mem db.meetings mid m0 hm0 hid0
  cases hf1 : db.meetings.find? (fun m => m.id == mid) with
  | none => rw [hf1] at hs1; simp at hs1
  | some mtg =>
  have hmeet1 := cancel_meeting_meetings_eq db phone mid cd1 td1 mtg hf1
  have hsucc1 := cancel_meeting_success db phone mid cd1 td1 mtg hf1
  have hmem1 : cancelStatus mid m0 ∈ (cancel_meeting db phone mid cd1 td1).2.1.meetings := by
    rw [hmeet1]
    exact List.mem_map_of_mem (cancelStatus mid) hm0
  have hs2 : ((cancel_meeting db phone mid cd1 td1).2.1.meetings.find?
      (fun m => m.id == mid)).isSome :=
    find?_id_isSome_of_mem _ mid (cancelStatus mid m0) hmem1 (by rw [cancelStatus_id]; exact hid0)
  cases hf2 : (cancel_meeting db phone mid cd1 td1).2.1.meetings.find? (fun m => m.id == mid) with
  | none => rw [hf2] at hs2; simp at hs2
  | some mtg2 =>
  refine ⟨hsucc1, ?_, ?_, ?_⟩
  · intro m hm hid
    rw [hmeet1] at hm
    obtain ⟨n, hn, hfn⟩ := List.mem_map.mp hm
    unfold cancelStatus at hfn
    by_cases hx : (n.id == mid) = true
    · rw [if_pos hx] at hfn
      rw [← hfn]
    · rw [if_neg hx] at hfn
      subst hfn
      exact absurd (by simp [hid]) hx
  · exact cancel_meeting_success _ phone mid cd2 td2 mtg2 hf2
  · rw [cancel_meeting_meetings_eq _ phone mid cd2 td2 mtg2 hf2, hmeet1, List.map_map]
    apply List.map_congr_left
    intro m _
    exact cancelStatus_idem mid m

def dbC5 : DB :=
  { users := [⟨1, "+15550005"⟩]
    meetings := [{ id := 1, userId := 1, googleEventId := some "e1",
                   todoistTaskId := some "t1", title := "Standup",
                   startTime := ⟨⟨2025, 10, 14⟩, ⟨9, 0⟩⟩,
                   endTime := ⟨⟨2025, 10, 14⟩, ⟨9, 30⟩⟩,
                   location := none, meetingType := "virtual",
                   status := "scheduled", createdAt := 100 }]
    nextUserId := 2
    nextMeetingId := 2 }

/-- Witness for C5 at a concrete store, with both external deletions failing
on the first run. -/
theorem claim5_cancel_idempotent_nonblocking_witness :
    (∃ m ∈ dbC5.meetings, m.id = 1) ∧
    ((cancel_meeting dbC5 "+15550005" 1 (.err "api down") (.err "api down")).1.success = true ∧
     (∀ m ∈ (cancel_meeting dbC5 "+15550005" 1 (.err "api down") (.err "api down")).2.1.meetings,
        m.id = 1 → m.status = "cancelled") ∧
     (cancel_meeting (cancel_meeting dbC5 "+15550005" 1 (.err "api down") (.err "api down")).2.1
        "+15550005" 1 (.ok ()) (.ok ())).1.success = true ∧
     (cancel_meeting (cancel_meeting dbC5 "+15550005" 1 (.err "api down") (.err "api down")).2.1
        "+15550005" 1 (.ok ()) (.ok ())).2.1.meetings
       = (cancel_meeting dbC5 "+15550005" 1 (.err "api down") (.err "api down")).2.1.meetings) :=
  ⟨by decide,
   claim5_cancel_idempotent_nonblocking dbC5 "+15550005" 1
     (.err "api down") (.err "api down") (.ok ()) (.ok ()) (by decide)⟩

def dbC8 : DB :=
  { users := [⟨1, "+212600000001"⟩], meetings := [], nextUserId := 2, nextMeetingId := 1 }

def aiC8 : AIResult :=
  { intent := some "schedule", date := some "2025-10-20", time := some "09:00",
    durationMinutes := some 45, title := some "Demo", confidence := 9 / 10 }

/-- C8, evaluated at the failing input: with the calendar create succeeding
(event id ev1) and the task create succeeding (task id t42), create_meeting
reports success, yet the persisted Meeting row still has a null
todoist_task_id — _create_todoist_task assigns the id on the ORM object
owned by the caller's session but commits a freshly opened session, and the
caller's session is closed without another commit, so the update is
discarded rather than recorded. -/
theorem claim8_task_ref_not_persisted :
    (create_meeting dbC8 ⟨2025, 10, 12⟩ 44640 "+212600000001" aiC8
        (.ok "ev1") (.ok "t42")).1.success = true ∧
    ((create_meeting dbC8 ⟨2025, 10, 12⟩ 44640 "+212600000001" aiC8
        (.ok "ev1") (.ok "t42")).2.1.meetings.map MeetingRec.todoistTaskId) = [none] ∧
    ((create_meeting dbC8 ⟨2025, 10, 12⟩ 44640 "+212600000001" aiC8
        (.ok "ev1") (.ok "t42")).2.1.meetings.map MeetingRec.googleEventId) = [some "ev1"] := by
  decide

def dbC10 : DB :=
  { users := [⟨1, "+15550100"⟩, ⟨2, "+15550200"⟩]
    meetings := [{ id := 7, userId := 2, googleEventId := some "evB",
                   todoistTaskId := some "tB", title := "Board sync",
                   startTime := ⟨⟨2025, 10, 20⟩, ⟨9, 0⟩⟩,
                   endTime := ⟨⟨2025, 10, 20⟩, ⟨9, 30⟩⟩,
                   location := none, meetingType := "virtual",
                   status := "scheduled", createdAt := 500 }]
    nextUserId := 3
    nextMeetingId := 8 }

/-- C10, evaluated at the failing input: user +15550100 (id 1) invokes cancel
with the id of a meeting owned by user id 2.  cancel_meeting looks the row up
by id alone, reports success, mutates the other user's meeting to cancelled,
and issues the external deletions with the caller's phone (hence the caller's
stored credentials) against the other user's event and task references — a
cross-user reference the claim rules out. -/
theorem claim10_cancel_crosses_users :
    dbC10.users.find? (fun u => u.phoneNumber == "+15550100") = some ⟨1, "+15550100"⟩ ∧
    (cancel_meeting dbC10 "+15550100" 7 (.ok ()) (.ok ())).1.success = true ∧
    ((cancel_meeting dbC10 "+15550100" 7 (.ok ()) (.ok ())).2.1.meetings.map
        fun m => (m.userId, m.status)) = [(2, "cancelled")] ∧
    (cancel_meeting dbC10 "+15550100" 7 (.ok ()) (.ok ())).2.2
      = [.calDelete "+15550100" "evB", .taskDel "+15550100" "tB"] := by
  decide

/-- Point stored in the Qdrant conversation_context collection by
store_conversation_context: payload phone_number, message, context (the
classifier output) and timestamp.  The embedding vector is opaque data
consumed only by the store, so it is not carried. -/
structure QPoint where
  phoneNumber : String
  message : String
  context : AIResult
  timestamp : String
deriving DecidableEq, Repr

/-- Entry of the list get_relevant_context returns: the payload fields of a
hit.  The similarity score the store attaches is ranking data that nothing
downstream reads, so it is not carried. -/
structure CtxEntry where
  message : String
  context : AIResult
  timestamp : String
deriving DecidableEq, Repr

def QPoint.toCtxEntry (p : QPoint) : CtxEntry :=
  { message := p.message, context := p.context, timestamp := p.timestamp }

/-- RAGService.store_conversation_context: embed the turn (embedOk is the
embedding call outcome; an empty embedding returns without storing) and
upsert one point whose payload carries the requesting phone number.  All
failures are swallowed. -/
def store_conversation_context (qstore : List QPoint) (embedOk : Bool)
    (phone message : String) (context : AIResult) (timestamp : String) : List QPoint :=
  if embedOk then
    qstore ++ [{ phoneNumber := phone, message := message,
                 context := context, timestamp := timestamp }]
  else qstore

/-- RAGService.get_relevant_context: embed the query (on embedding failure
return []); search the collection with a must-filter on
payload.phone_number = phone and the given limit, then map the hit payloads.
The store ranks the filtered candidates by vector similarity before the
limit is applied; rank is that external ranking, quantified over in the
theorems (constrained only to return candidates it was given).  The
surrounding try/except also degrades to [] and never raises. -/
def get_relevant_context (qstore : List QPoint) (rank : List QPoint → List QPoint)
    (embedOk : Bool) (phone message : String) (limit : Nat := 5) : List CtxEntry :=
  if !embedOk then []
  else
    let searchResult := (rank (qstore.filter (fun p => p.phoneNumber == phone))).take limit
    searchResult.map QPoint.toCtxEntry

/-- Dict built per meeting by get_user_meeting_history (datetimes are
isoformat strings there, sliced by the reply builders). -/
structure MeetingInfo where
  title : String
  startTime : String
  endTime : String
  location : Option String
  meetingType : String
  status : String
deriving DecidableEq, Repr

def MeetingRec.toMeetingInfo (m : MeetingRec) : MeetingInfo :=
  { title := m.title, startTime := m.startTime.isoformat, endTime := m.endTime.isoformat,
    location := m.location, meetingType := m.meetingType, status := m.status }

def insertByKeyDesc (key : MeetingRec → Nat) (m : MeetingRec) :
    List MeetingRec → List MeetingRec
  | [] => [m]
  | x :: xs => if key x ≤ key m then m :: x :: xs else x :: insertByKeyDesc key m xs

/-- order_by(start_time.desc()), as a stable insertion sort on the key. -/
def sortByKeyDesc (key : MeetingRec → Nat) : List MeetingRec → List MeetingRec
  | [] => []
  | x :: xs => insertByKeyDesc key x (sortByKeyDesc key xs)

/-- RAGService.get_user_meeting_history: meetings of the user with the given
phone (the Meeting-to-User join on user_id), created within the trailing
30-day window, newest start time first, capped at 10.  nowTick is
datetime.now() in minutes; the cutoff is 30 days earlier. -/
def get_user_meeting_history (db : DB) (phone : String) (nowTick : Nat) : List MeetingInfo :=
  let cutoff := nowTick - 43200
  let ms := db.meetings.filter fun m =>
    db.users.any (fun u => u.id == m.userId && u.phoneNumber == phone)
      && cutoff ≤ m.createdAt
  ((sortByKeyDesc (fun m => m.startTime.key) ms).take 10).map MeetingRec.toMeetingInfo

/-- State visible to one webhook invocation: the relational store and the
vector store. -/
structure World where
  db : DB
  qstore : List QPoint
deriving DecidableEq, Repr

/-- The enhanced_context dict enhance_ai_context builds.  The source also
reads the conversations table into current_context, but that value is only
interpolated into the generator prompt (opaque behind the generator oracle)
and never branched on, so it is not carried. -/
structure EnhancedContext where
  currentMessage : String
  conversationHistory : List CtxEntry
  meetingHistory : List MeetingInfo
  userPhone : String
  timestamp : String
deriving DecidableEq, Repr

/-- Responses of the external ports consulted while handling one inbound
message, plus the process clock, all per-request. -/
structure Oracles where
  classifier : SvcResult AIResult
  embedQuery : Bool
  embedStore : Bool
  rank : List QPoint → List QPoint
  calendarCreate : SvcResult String
  taskCreate : SvcResult String
  generator : SvcResult String
  nowDate : Date
  nowTick : Nat
  timestamp : String

/-- RAGService.enhance_ai_context. -/
def enhance_ai_context (w : World) (o : Oracles) (phone message : String) : EnhancedContext :=
  { currentMessage := message
    conversationHistory := get_relevant_context w.qstore o.rank o.embedQuery phone message 5
    meetingHistory := get_user_meeting_history w.db phone o.nowTick
    userPhone := phone
    timestamp := o.timestamp }

/-- Python str.strip() whitespace set (the characters str.strip removes). -/
def isPySpace (c : Char) : Bool :=
  c == ' ' || c == '\t' || c == '\n' || c == '\r' || c == '\x0B' || c == '\x0C'

/-- str.strip(). -/
def strip (s : String) : String :=
  ⟨((s.data.dropWhile isPySpace).reverse.dropWhile isPySpace).reverse⟩

/-- RAGService.generate_contextual_response: the generator output, stripped;
on any failure of the generator call, the fixed fallback. -/
def generate_contextual_response (generator : SvcResult String) : String :=
  match generator with
  | .ok s => strip s
  | .err _ => "I\x27m here to help with your scheduling needs. What would you like to do?"

/-- sep.join(parts). -/
def joinSep (sep : String) : List String → String
  | [] => ""
  | [x] => x
  | x :: y :: xs => x ++ sep ++ joinSep sep (y :: xs)

/-- The two field-completion prompts of handle_schedule_request; both
interpolate ", ".join(missing_fields). -/
def missingFieldsReply (ctx : EnhancedContext) (missing : List String) : String :=
  if !ctx.meetingHistory.isEmpty then
    "I\x27d be happy to schedule that meeting! Based on your usual preferences, could you please provide the "
      ++ joinSep ", " missing ++ "?"
  else
    "I\x27d be happy to schedule that meeting! Could you please provide the "
      ++ joinSep ", " missing ++ "?"

/-- The success confirmation of handle_schedule_request. -/
def scheduleSuccessReply (aiResult : AIResult) : String :=
  let meetingType := aiResult.meetingType.getD "meeting"
  let locationText :=
    if pyTruthy aiResult.location then " at " ++ aiResult.location.getD "" else ""
  "✅ Perfect! I\x27ve scheduled your " ++ meetingType ++ " for "
    ++ aiResult.date.getD "" ++ " at " ++ aiResult.time.getD "" ++ locationText
    ++ ". You\x27ll see it in Google Calendar and get a Todoist reminder on the day."

/-- The failure explanation of handle_schedule_request, echoing the
orchestrator's reported reason. -/
def scheduleFailureReply (error : String) : String :=
  "❌ Sorry, I couldn\x27t create the meeting: " ++ error

/-- ai_result.get(field) for the members of required_fields. -/
def aiGet (a : AIResult) : String → Option String
  | "date" => a.date
  | "time" => a.time
  | _ => none

/-- handle_schedule_request (app/api/webhooks.py).  missing_fields collects,
in the order of required_fields = [date, time], the fields whose value is
falsy; when non-empty the field-completion prompt is returned and the
scheduler is never constructed or invoked (no orchestration call, store
untouched).  Otherwise create_meeting runs and the reply echoes success or
the reported failure reason.  Returns the reply, the store and the external
calls issued.  The except branch around create_meeting is unreachable here:
create_meeting is total in this model, as in the source it returns failure
dicts rather than raising. -/
def handle_schedule_request (db : DB) (o : Oracles) (phone : String)
    (aiResult : AIResult) (ctx : EnhancedContext) : String × DB × List ExtCall :=
  let requiredFields := ["date", "time"]
  let missingFields := requiredFields.filter (fun f => !pyTruthy (aiGet aiResult f))
  if missingFields ≠ [] then
    (missingFieldsReply ctx missingFields, db, [])
  else
    match create_meeting db o.nowDate o.nowTick phone aiResult
        o.calendarCreate o.taskCreate with
    | (result, db, calls) =>
      if result.success then
        (scheduleSuccessReply aiResult, db, calls)
      else
        (scheduleFailureReply (result.error.getD ""), db, calls)

/-- s[:n]. -/
def takeChars (s : String) (n : Nat) : String := ⟨s.data.take n⟩

/-- One bullet of the upcoming-meeting listing in handle_cancel_request and
handle_reschedule_request. -/
def meetingLine (m : MeetingInfo) : String :=
  "• " ++ m.title ++ " on " ++ takeChars m.startTime 10

/-- handle_cancel_request: lists up to 3 upcoming scheduled meetings and asks
which to cancel; with no history or no upcoming meetings, asks which meeting
to cancel.  It never invokes the scheduler. -/
def handle_cancel_request (ctx : EnhancedContext) : String :=
  let recentMeetings := ctx.meetingHistory
  let fallback :=
    "I\x27ll help you cancel a meeting. Could you tell me which meeting you\x27d like to cancel?"
  if !recentMeetings.isEmpty then
    let upcomingMeetings := recentMeetings.filter (fun m => m.status == "scheduled")
    if !upcomingMeetings.isEmpty then
      "I can help you cancel a meeting. Here are your upcoming meetings:\n\n"
        ++ joinSep "\n" ((upcomingMeetings.take 3).map meetingLine)
        ++ "\n\nWhich one would you like to cancel?"
    else fallback
  else fallback

/-- handle_reschedule_request: same shape as handle_cancel_request. -/
def handle_reschedule_request (ctx : EnhancedContext) : String :=
  let recentMeetings := ctx.meetingHistory
  let fallback :=
    "I\x27ll help you reschedule. Which meeting would you like to move, and what\x27s the new time?"
  if !recentMeetings.isEmpty then
    let upcomingMeetings := recentMeetings.filter (fun m => m.status == "scheduled")
    if !upcomingMeetings.isEmpty then
      "I can help you reschedule a meeting. Here are your upcoming meetings:\n\n"
        ++ joinSep "\n" ((upcomingMeetings.take 3).map meetingLine)
        ++ "\n\nWhich one would you like to reschedule, and what\x27s the new time?"
    else fallback
  else fallback

/-- One line of the info listing. -/
def infoLine (m : MeetingInfo) : String :=
  "📅 " ++ m.title ++ "\n   " ++ takeChars m.startTime 16 ++ " - "
    ++ (match m.location with
        | some l => if pyTruthyStr l then l else "No location"
        | none => "No location")

/-- handle_info_request. -/
def handle_info_request (ctx : EnhancedContext) : String :=
  let recentMeetings := ctx.meetingHistory
  if !recentMeetings.isEmpty then
    let upcomingMeetings := recentMeetings.filter (fun m => m.status == "scheduled")
    if !upcomingMeetings.isEmpty then
      "Here are your upcoming meetings:\n\n"
        ++ joinSep "\n" ((upcomingMeetings.take 5).map infoLine)
        ++ "\n\nNeed help with any of these?"
    else
      "You don\x27t have any upcoming meetings scheduled. Would you like to schedule one?"
  else
    "I don\x27t see any meetings in your history yet. Would you like to schedule your first meeting?"

/-- str.replace(pat, repl): replace every occurrence. -/
def replaceAll (pat repl : List Char) : List Char → List Char
  | [] => []
  | c :: cs =>
    if h : pat ≠ [] ∧ pat.isPrefixOf (c :: cs) then
      repl ++ replaceAll pat repl ((c :: cs).drop pat.length)
    else
      c :: replaceAll pat repl cs
termination_by l => l.length
decreasing_by
  · simp only [List.length_drop, List.length_cons]
    have hp : 0 < pat.length := List.length_pos.mpr h.1
    omega
  · simp

/-- process_whatsapp_message (app/api/webhooks.py): strip the whatsapp:
prefix, build the enriched context, classify, store the turn, then dispatch
on the intent; anything that is not schedule/cancel/reschedule/info goes to
the contextual generator.  Every step is total here, as in the source every
step returns degraded values instead of raising, so the outer except branch
(the trouble-understanding apology) is unreachable. -/
def process_whatsapp_message (w : World) (o : Oracles) (fromNumber message : String) :
    String × World :=
  let phone : String := ⟨replaceAll "whatsapp:".data [] fromNumber.data⟩
  let enhancedContext := enhance_ai_context w o phone message
  let aiResult := classify_intent o.classifier
  let qstore := store_conversation_context w.qstore o.embedStore phone message aiResult o.timestamp
  let w := { w with qstore := qstore }
  let intent := aiResult.intent
  if intent == some "schedule" then
    ((handle_schedule_request w.db o phone aiResult enhancedContext).1,
     { w with db := (handle_schedule_request w.db o phone aiResult enhancedContext).2.1 })
  else if intent == some "cancel" then
    (handle_cancel_request enhancedContext, w)
  else if intent == some "reschedule" then
    (handle_reschedule_request enhancedContext, w)
  else if intent == some "info" then
    (handle_info_request enhancedContext, w)
  else
    (generate_contextual_response o.generator, w)

/-- str(MessagingResponse() with one message): the TwiML document the webhook
returns to the channel. -/
def twiml (s : String) : String :=
  "<?xml version=\"1.0\" encoding=\"UTF-8\"?><Response><Message>" ++ s
    ++ "</Message></Response>"

/-- whatsapp_webhook: extract From and Body from the form and wrap the
processed reply in TwiML.  Its try/except wraps everything and answers the
fixed apology on any raised error; in this model every step is total, so the
happy path is the whole function. -/
def whatsapp_webhook (w : World) (o : Oracles) (fromNumber messageBody : String) :
    String × World :=
  (twiml (process_whatsapp_message w o fromNumber messageBody).1,
   (process_whatsapp_message w o fromNumber messageBody).2)

theorem getOrCreateUser_meetings (db : DB) (phone : String) :
    ((getOrCreateUser db phone).2).meetings = db.meetings ∧
    ((getOrCreateUser db phone).2).nextMeetingId = db.nextMeetingId := by
  unfold getOrCreateUser
  cases db.users.find? (fun u => u.phoneNumber == phone) <;> simp

theorem commitSession_empty (db : DB) : commitSession db { staged := [] } = db := by
  unfold commitSession
  simp [List.find?]

theorem create_meeting_err_spec (db : DB) (nowDate : Date) (nowTick : Nat)
    (phone reason : String) (a : AIResult) (tc : SvcResult String) :
    (create_meeting db nowDate nowTick phone a (.err reason) tc).1.success = false ∧
    (create_meeting db nowDate nowTick phone a (.err reason) tc).1.error = some reason ∧
    (create_meeting db nowDate nowTick phone a (.err reason) tc).2.1.meetings = db.meetings := by
  unfold create_meeting
  cases hgu : getOrCreateUser db phone with
  | mk user db1 =>
    have h1 : db1.meetings = db.meetings := by
      have := getOrCreateUser_meetings db phone
      rw [hgu] at this
      exact this.1
    simp [h1]

theorem create_meeting_ok_err_spec (db : DB) (nowDate : Date) (nowTick : Nat)
    (phone eid terr : String) (a : AIResult) :
    ∃ m : MeetingRec,
      (create_meeting db nowDate nowTick phone a (.ok eid) (.err terr)).1.success = true ∧
      (create_meeting db nowDate nowTick phone a (.ok eid) (.err terr)).2.1.meetings
        = db.meetings ++ [m] ∧
      m.status = "scheduled" ∧ m.googleEventId = some eid ∧ m.todoistTaskId = none := by
  unfold create_meeting
  cases hgu : getOrCreateUser db phone with
  | mk user db1 =>
    have h1 : db1.meetings = db.meetings := by
      have := getOrCreateUser_meetings db phone
      rw [hgu] at this
      exact this.1
    refine ⟨{ id := db1.nextMeetingId
              userId := user.id
              googleEventId := some eid
              todoistTaskId := none
              title := a.title.getD "Meeting"
              startTime := parse_datetime nowDate a.date a.time
              endTime := addMinutes (parse_datetime nowDate a.date a.time)
                           (a.durationMinutes.getD 30)
              location := a.location
              meetingType := a.meetingType.getD "in-person"
              status := "scheduled"
              createdAt := nowTick }, ?_, ?_, rfl, rfl, rfl⟩
    · simp [create_todoist_task]
    · simp [create_todoist_task, h1]

/-- C4: a schedule intent lacking date, time, or both, is answered with the
field-completion prompt whose interpolated list is exactly the missing field
names in required_fields order (date before time), the store is untouched,
and no external call — in particular no meeting-creation call — is issued. -/
theorem claim4_missing_fields_prompt (db : DB) (o : Oracles) (phone : String)
    (aiResult : AIResult) (ctx : EnhancedContext)
    (h : pyTruthy aiResult.date = false ∨ pyTruthy aiResult.time = false) :
    (handle_schedule_request db o phone aiResult ctx).1
      = missingFieldsReply ctx
          ((if pyTruthy aiResult.date then [] else ["date"])
            ++ (if pyTruthy aiResult.time then [] else ["time"])) ∧
    (handle_schedule_request db o phone aiResult ctx).2.1 = db ∧
    (handle_schedule_request db o phone aiResult ctx).2.2 = ([] : List ExtCall) := by
  have hgd : aiGet aiResult "date" = aiResult.date := rfl
  have hgt : aiGet aiResult "time" = aiResult.time := rfl
  cases hd : pyTruthy aiResult.date <;> cases ht : pyTruthy aiResult.time
  · simp [handle_schedule_request, List.filter_cons, List.filter_nil, hgd, hgt, hd, ht]
  · simp [handle_schedule_request, List.filter_cons, List.filter_nil, hgd, hgt, hd, ht]
  · simp [handle_schedule_request, List.filter_cons, List.filter_nil, hgd, hgt, hd, ht]
  · rw [hd] at h
    rw [ht] at h
    rcases h with h | h <;> exact absurd h (by simp)

def rankId : List QPoint → List QPoint := fun l => l

def dbEmpty : DB := { users := [], meetings := [], nextUserId := 1, nextMeetingId := 1 }

def ctxEmpty : EnhancedContext :=
  { currentMessage := "", conversationHistory := [], meetingHistory := [],
    userPhone := "", timestamp := "" }

def oBase : Oracles :=
  { classifier := .err "unused"
    embedQuery := true
    embedStore := true
    rank := rankId
    calendarCreate := .err "unused"
    taskCreate := .err "unused"
    generator := .err "unused"
    nowDate := ⟨2025, 10, 12⟩
    nowTick := 44640
    timestamp := "2025-10-12T12:00:00" }

def aiMissingDate : AIResult :=
  { intent := some "schedule", time := some "15:00", confidence := 7 / 10 }

/-- Witness for C4: a schedule intent carrying a time but no date is answered
with the prompt listing exactly date, with no store change and no call. -/
theorem claim4_missing_fields_prompt_witness :
    (pyTruthy aiMissingDate.date = false ∨ pyTruthy aiMissingDate.time = false) ∧
    ((handle_schedule_request dbEmpty oBase "+15552222" aiMissingDate ctxEmpty).1
       = missingFieldsReply ctxEmpty
           ((if pyTruthy aiMissingDate.date then [] else ["date"])
             ++ (if pyTruthy aiMissingDate.time then [] else ["time"])) ∧
     (handle_schedule_request dbEmpty oBase "+15552222" aiMissingDate ctxEmpty).2.1 = dbEmpty ∧
     (handle_schedule_request dbEmpty oBase "+15552222" aiMissingDate ctxEmpty).2.2
       = ([] : List ExtCall)) :=
  ⟨Or.inl (by decide),
   claim4_missing_fields_prompt dbEmpty oBase "+15552222" aiMissingDate ctxEmpty
     (Or.inl (by decide))⟩

/-- C2: when the calendar create fails, the schedule operation fails
terminally — the meetings table afterwards equals the meetings table before
(no Meeting row persisted; only the get-or-create of the User row may have
run), and the reply is the failure explanation echoing the reason the
calendar port provided. -/
theorem claim2_calendar_failure_terminal (db : DB) (o : Oracles) (phone reason : String)
    (aiResult : AIResult) (ctx : EnhancedContext)
    (hd : pyTruthy aiResult.date = true) (ht : pyTruthy aiResult.time = true)
    (hcal : o.calendarCreate = .err reason) :
    (handle_schedule_request db o phone aiResult ctx).2.1.meetings = db.meetings ∧
    (handle_schedule_request db o phone aiResult ctx).1 = scheduleFailureReply reason := by
  have hgd : aiGet aiResult "date" = aiResult.date := rfl
  have hgt : aiGet aiResult "time" = aiResult.time := rfl
  have hspec := create_meeting_err_spec db o.nowDate o.nowTick phone reason aiResult o.taskCreate
  constructor
  · simp [handle_schedule_request, List.filter_cons, List.filter_nil, hgd, hgt, hd, ht,
          hcal, hspec.1, hspec.2.2]
  · simp [handle_schedule_request, List.filter_cons, List.filter_nil, hgd, hgt, hd, ht,
          hcal, hspec.1, hspec.2.1]

def aiFull : AIResult :=
  { intent := some "schedule", date := some "2025-11-03", time := some "14:00",
    location := some "Office", title := some "Design review", confidence := 8 / 10 }

def oCalFail : Oracles := { oBase with calendarCreate := .err "User not authenticated with Google" }

/-- Witness for C2 at a concrete store and reason. -/
theorem claim2_calendar_failure_terminal_witness :
    pyTruthy aiFull.date = true ∧ pyTruthy aiFull.time = true ∧
    oCalFail.calendarCreate = .err "User not authenticated with Google" ∧
    ((handle_schedule_request dbEmpty oCalFail "+15553333" aiFull ctxEmpty).2.1.meetings
       = dbEmpty.meetings ∧
     (handle_schedule_request dbEmpty oCalFail "+15553333" aiFull ctxEmpty).1
       = scheduleFailureReply "User not authenticated with Google") :=
  ⟨by decide, by decide, rfl,
   claim2_calendar_failure_terminal dbEmpty oCalFail "+15553333"
     "User not authenticated with Google" aiFull ctxEmpty (by decide) (by decide) rfl⟩

/-- C1: when the calendar create succeeds and the task create then fails, one
Meeting row is appended with status scheduled (the column default the insert
leaves in place), the returned calendar event id, and a null task reference;
the reply is the success confirmation, not a failure message. -/
theorem claim1_calendar_ok_task_fail (db : DB) (o : Oracles) (phone eid terr : String)
    (aiResult : AIResult) (ctx : EnhancedContext)
    (hd : pyTruthy aiResult.date = true) (ht : pyTruthy aiResult.time = true)
    (hcal : o.calendarCreate = .ok eid) (htask : o.taskCreate = .err terr) :
    ∃ m : MeetingRec,
      (handle_schedule_request db o phone aiResult ctx).2.1.meetings = db.meetings ++ [m] ∧
      m.status = "scheduled" ∧
      m.googleEventId = some eid ∧
      m.todoistTaskId = none ∧
      (handle_schedule_request db o phone aiResult ctx).1 = scheduleSuccessReply aiResult := by
  have hgd : aiGet aiResult "date" = aiResult.date := rfl
  have hgt : aiGet aiResult "time" = aiResult.time := rfl
  obtain ⟨m, hsucc, hmeet, hstat, hgid, htid⟩ :=
    create_meeting_ok_err_spec db o.nowDate o.nowTick phone eid terr aiResult
  refine ⟨m, ?_, hstat, hgid, htid, ?_⟩
  · simp [handle_schedule_request, List.filter_cons, List.filter_nil, hgd, hgt, hd, ht,
          hcal, htask, hsucc, hmeet]
  · simp [handle_schedule_request, List.filter_cons, List.filter_nil, hgd, hgt, hd, ht,
          hcal, htask, hsucc]

def oC1 : Oracles :=
  { oBase with calendarCreate := .ok "evW", taskCreate := .err "Todoist API error: 500" }

/-- Witness for C1 at a concrete store, event id and task failure. -/
theorem claim1_calendar_ok_task_fail_witness :
    pyTruthy aiFull.date = true ∧ pyTruthy aiFull.time = true ∧
    oC1.calendarCreate = .ok "evW" ∧ oC1.taskCreate = .err "Todoist API error: 500" ∧
    (∃ m : MeetingRec,
      (handle_schedule_request dbEmpty oC1 "+15553333" aiFull ctxEmpty).2.1.meetings
        = dbEmpty.meetings ++ [m] ∧
      m.status = "scheduled" ∧
      m.googleEventId = some "evW" ∧
      m.todoistTaskId = none ∧
      (handle_schedule_request dbEmpty oC1 "+15553333" aiFull ctxEmpty).1
        = scheduleSuccessReply aiFull) :=
  ⟨by decide, by decide, rfl, rfl,
   claim1_calendar_ok_task_fail dbEmpty oC1 "+15553333" "evW" "Todoist API error: 500"
     aiFull ctxEmpty (by decide) (by decide) rfl rfl⟩

/-- C6: context retrieval returns only conversation turns of the requested
user.  For every stored set of points across any number of users, any
embedding outcome, any limit, and any similarity ranking the store applies
(constrained only to rank candidates it was handed), every entry
get_relevant_context returns is the payload of a stored point whose
phone_number is the requested one — no turn of a different user appears. -/
theorem claim6_context_no_cross_user (qstore : List QPoint)
    (rank : List QPoint → List QPoint) (embedOk : Bool) (phone message : String)
    (limit : Nat)
    (hrank : ∀ (l : List QPoint) (p : QPoint), p ∈ rank l → p ∈ l) :
    ∀ e ∈ get_relevant_context qstore rank embedOk phone message limit,
      ∃ p ∈ qstore, p.phoneNumber = phone ∧ e = p.toCtxEntry := by
  intro e he
  unfold get_relevant_context at he
  cases hb : embedOk with
  | false =>
    rw [hb] at he
    simp at he
  | true =>
    rw [hb] at he
    simp only [Bool.not_true] at he
    rw [if_neg (by decide)] at he
    rw [List.mem_map] at he
    obtain ⟨p, hp, hpe⟩ := he
    have hmem : p ∈ rank (qstore.filter (fun q => q.phoneNumber == phone)) :=
      List.mem_of_mem_take hp
    have hfil := hrank _ _ hmem
    rw [List.mem_filter] at hfil
    exact ⟨p, hfil.1, by simpa using hfil.2, hpe.symm⟩

def qstoreC6 : List QPoint :=
  [{ phoneNumber := "+15550001", message := "book a slot tomorrow", context := {},
     timestamp := "t1" },
   { phoneNumber := "+15550002", message := "unrelated user turn", context := {},
     timestamp := "t2" }]

/-- Witness for C6 at a concrete two-user store with the identity ranking. -/
theorem claim6_context_no_cross_user_witness :
    (∀ (l : List QPoint) (p : QPoint), p ∈ rankId l → p ∈ l) ∧
    (∀ e ∈ get_relevant_context qstoreC6 rankId true "+15550001" "hello" 5,
       ∃ p ∈ qstoreC6, p.phoneNumber = "+15550001" ∧ e = p.toCtxEntry) :=
  ⟨fun _ _ h => h,
   claim6_context_no_cross_user qstoreC6 rankId true "+15550001" "hello" 5
     (fun _ _ h => h)⟩

/-- C3 amended: on any classifier failure, intent extraction returns intent
"other" with confidence 0.0 without raising; the handler then answers
through the contextual generator — the generator output stripped of
surrounding whitespace on success (hence non-empty whenever that stripped
output is), and a fixed non-empty fallback on generator failure — and the
meetings table is unchanged, so no Meeting is created for the message. -/
theorem claim3_classifier_failure_amended (w : World) (o : Oracles)
    (fromNumber message e : String) (hc : o.classifier = .err e) :
    (classify_intent o.classifier).intent = some "other" ∧
    (classify_intent o.classifier).confidence = 0 ∧
    (process_whatsapp_message w o fromNumber message).2.db.meetings = w.db.meetings ∧
    (process_whatsapp_message w o fromNumber message).1
      = generate_contextual_response o.generator ∧
    (∀ g, o.generator = .err g → (process_whatsapp_message w o fromNumber message).1 ≠ "") := by
  have hred : (process_whatsapp_message w o fromNumber message).1
      = generate_contextual_response o.generator := by
    simp only [process_whatsapp_message, hc]
    rfl
  refine ⟨by rw [hc]; rfl, by rw [hc]; rfl, ?_, hred, ?_⟩
  · simp only [process_whatsapp_message, hc]
    rfl
  · intro g hg
    rw [hred, hg]
    simp only [generate_contextual_response]
    decide

def oC3w : Oracles := { oBase with classifier := .err "timeout" }

/-- Witness for the amended C3 theorem at a concrete world, message and
classifier failure. -/
theorem claim3_classifier_failure_amended_witness :
    oC3w.classifier = SvcResult.err "timeout" ∧
    ((classify_intent oC3w.classifier).intent = some "other" ∧
     (classify_intent oC3w.classifier).confidence = 0 ∧
     (process_whatsapp_message ⟨dbEmpty, []⟩ oC3w "whatsapp:+15551000" "hi").2.db.meetings
       = (⟨dbEmpty, []⟩ : World).db.meetings ∧
     (process_whatsapp_message ⟨dbEmpty, []⟩ oC3w "whatsapp:+15551000" "hi").1
       = generate_contextual_response oC3w.generator ∧
     (∀ g, oC3w.generator = .err g →
        (process_whatsapp_message ⟨dbEmpty, []⟩ oC3w "whatsapp:+15551000" "hi").1 ≠ "")) :=
  ⟨rfl,
   claim3_classifier_failure_amended ⟨dbEmpty, []⟩ oC3w "whatsapp:+15551000" "hi" "timeout" rfl⟩

def oC3 : Oracles := { oBase with classifier := .err "OpenAI timeout", generator := .ok "" }

/-- C3 counterexample: the classifier fails (so intent degrades to other and
the contextual path runs), the generator succeeds with empty output, and the
handler returns the empty string as its reply — refuting the claimed
non-empty reply at this input. -/
theorem claim3_empty_reply_counterexample :
    oC3.classifier = .err "OpenAI timeout" ∧
    (process_whatsapp_message ⟨dbEmpty, []⟩ oC3 "whatsapp:+15551234" "hello").1 = "" :=
  ⟨rfl, rfl⟩

theorem string_append_data (a b : String) : (a ++ b).data = a.data ++ b.data := rfl

theorem data_append_ne_nil (a b : String) (h : a.data ≠ []) : (a ++ b).data ≠ [] := by
  rw [string_append_data]
  intro hab
  exact h (List.append_eq_nil.mp hab).1

theorem ne_empty_of_data_ne_nil (s : String) (h : s.data ≠ []) : s ≠ "" := by
  intro he
  rw [he] at h
  exact h rfl

theorem ite_ne_empty (c : Prop) [Decidable c] (a b : String)
    (ha : a ≠ "") (hb : b ≠ "") : (if c then a else b) ≠ "" := by
  by_cases h : c
  · rw [if_pos h]
    exact ha
  · rw [if_neg h]
    exact hb

theorem missingFieldsReply_ne_empty (ctx : EnhancedContext) (missing : List String) :
    missingFieldsReply ctx missing ≠ "" := by
  unfold missingFieldsReply
  apply ite_ne_empty
  · apply ne_empty_of_data_ne_nil
    apply data_append_ne_nil
    apply data_append_ne_nil
    decide
  · apply ne_empty_of_data_ne_nil
    apply data_append_ne_nil
    apply data_append_ne_nil
    decide

theorem scheduleSuccessReply_ne_empty (a : AIResult) : scheduleSuccessReply a ≠ "" := by
  apply ne_empty_of_data_ne_nil
  simp only [scheduleSuccessReply]
  apply data_append_ne_nil
  apply data_append_ne_nil
  apply data_append_ne_nil
  apply data_append_ne_nil
  apply data_append_ne_nil
  apply data_append_ne_nil
  apply data_append_ne_nil
  decide

theorem scheduleFailureReply_ne_empty (e : String) : scheduleFailureReply e ≠ "" := by
  apply ne_empty_of_data_ne_nil
  simp only [scheduleFailureReply]
  apply data_append_ne_nil
  decide

theorem handle_schedule_request_reply_ne_empty (db : DB) (o : Oracles) (phone : String)
    (a : AIResult) (ctx : EnhancedContext) :
    (handle_schedule_request db o phone a ctx).1 ≠ "" := by
  simp only [handle_schedule_request]
  split
  · exact missingFieldsReply_ne_empty ctx _
  · split
    · exact scheduleSuccessReply_ne_empty a
    · exact scheduleFailureReply_ne_empty _

theorem handle_cancel_request_ne_empty (ctx : EnhancedContext) :
    handle_cancel_request ctx ≠ "" := by
  simp only [handle_cancel_request]
  apply ite_ne_empty
  · apply ite_ne_empty
    · apply ne_empty_of_data_ne_nil
      apply data_append_ne_nil
      apply data_append_ne_nil
      decide
    · decide
  · decide

theorem handle_reschedule_request_ne_empty (ctx : EnhancedContext) :
    handle_reschedule_request ctx ≠ "" := by
  simp only [handle_reschedule_request]
  apply ite_ne_empty
  · apply ite_ne_empty
    · apply ne_empty_of_data_ne_nil
      apply data_append_ne_nil
      apply data_append_ne_nil
      decide
    · decide
  · decide

theorem handle_info_request_ne_empty (ctx : EnhancedContext) :
    handle_info_request ctx ≠ "" := by
  simp only [handle_info_request]
  apply ite_ne_empty
  · apply ite_ne_empty
    · apply ne_empty_of_data_ne_nil
      apply data_append_ne_nil
      apply data_append_ne_nil
      decide
    · decide
  · decide

/-- C9 amended: the webhook boundary is total (every embedded step returns a
degraded value instead of raising, so no exception can cross it) and always
returns a non-empty TwiML body; the inner reply text handed to the channel
is non-empty in every branch except one: when the free-form contextual path
runs and the text generator succeeds with output that strips to the empty
string.  Equivalently, an empty reply implies the generator returned
whitespace-only text. -/
theorem claim9_boundary_amended (w : World) (o : Oracles) (fromNumber message : String) :
    (whatsapp_webhook w o fromNumber message).1 ≠ "" ∧
    ((process_whatsapp_message w o fromNumber message).1 = "" →
      ∃ s, o.generator = .ok s ∧ strip s = "") := by
  constructor
  · show twiml (process_whatsapp_message w o fromNumber message).1 ≠ ""
    apply ne_empty_of_data_ne_nil
    unfold twiml
    apply data_append_ne_nil
    apply data_append_ne_nil
    decide
  · intro hempty
    simp only [process_whatsapp_message] at hempty
    split at hempty
    · exact absurd hempty (handle_schedule_request_reply_ne_empty _ _ _ _ _)
    · split at hempty
      · exact absurd hempty (handle_cancel_request_ne_empty _)
      · split at hempty
        · exact absurd hempty (handle_reschedule_request_ne_empty _)
        · split at hempty
          · exact absurd hempty (handle_info_request_ne_empty _)
          · cases hg : o.generator with
            | ok s =>
              rw [hg] at hempty
              have hok : generate_contextual_response (SvcResult.ok s) = "" := hempty
              refine ⟨s, rfl, ?_⟩
              simpa [generate_contextual_response] using hok
            | err g =>
              rw [hg] at hempty
              have hlit : generate_contextual_response (SvcResult.err g) = "" := hempty
              simp only [generate_contextual_response] at hlit
              exact absurd hlit (by decide)

/-- Witness instantiating the amended C9 statement at a concrete world and
message. -/
theorem claim9_boundary_amended_witness :
    (whatsapp_webhook ⟨dbEmpty, []⟩ oBase "whatsapp:+15559999" "hey").1 ≠ "" ∧
    ((process_whatsapp_message ⟨dbEmpty, []⟩ oBase "whatsapp:+15559999" "hey").1 = "" →
      ∃ s, oBase.generator = .ok s ∧ strip s = "") :=
  claim9_boundary_amended ⟨dbEmpty, []⟩ oBase "whatsapp:+15559999" "hey"

def aiOther : AIResult := { intent := some "smalltalk", confidence := 1 / 2 }

def oC9 : Oracles := { oBase with classifier := .ok aiOther, generator := .ok "   " }

/-- C9 counterexample: for a message classified outside the structured
intents, with the free-form generator succeeding with whitespace-only
output, the message-handling entry point returns the empty reply text —
refuting the claimed always-non-empty reply at this input. -/
theorem claim9_empty_reply_counterexample :
    (process_whatsapp_message ⟨dbEmpty, []⟩ oC9 "whatsapp:+15557777" "good morning").1 = "" :=
  rfl

end WAMS
